import Mathlib

/-!
Verification of the gcrs repository scanner (src/app/core/scanner.py,
src/app/models.py, src/gcrs/api/main.py) against its natural-language
specification.

The Python code is shallowly embedded: the lookup tables become Lean lists,
Python dict-literal construction and dict mutation become explicit
association-list operations with Python's semantics (later literal entries
override earlier ones; `d[k] = v` replaces or appends), `os.walk` with
in-place pruning of `SKIP_DIRS` becomes a recursive walk over a directory
tree, and exceptions (pydantic ValidationError, OSError from `stat`) become
an `Except` result.
-/

namespace Gcrs

/-- Lowercase a string character by character, modelling Python `str.lower()`
on the ASCII extension strings used by the scanner. -/
def lowerStr (s : String) : String :=
  String.mk (s.data.map Char.toLower)

/-- Index of the last occurrence of a dot in a character list, modelling
Python `str.rfind(".")` as used by `pathlib`'s suffix computation. -/
def rfindDot (cs : List Char) : Option Nat :=
  (List.range cs.length).foldl
    (fun acc i => if cs.getD i ' ' = '.' then some i else acc) none

/-- Model of `pathlib.PurePath.suffix` on a filename: the substring from the
last dot onward, provided that dot is neither the first nor the last
character; otherwise the empty string (so `"README.md"` gives `".md"`,
`".gitignore"` and `"Makefile"` give `""`). -/
def pySuffix (name : String) : String :=
  let cs := name.data
  match rfindDot cs with
  | some i => if 0 < i ∧ i + 1 < cs.length then String.mk (cs.drop i) else ""
  | none => ""

/-- Python dict lookup `d.get(k, None)` for a dict built from an ordered list
of key-value entries: the LAST entry with the key wins, matching Python dict
literal semantics where a later duplicate key overrides an earlier one. -/
def dictGet (d : List (String × String)) (k : String) : Option String :=
  d.foldl (fun acc kv => if kv.1 = k then some kv.2 else acc) none

/-- Python dict assignment `d[k] = v` on a counts dict: replace the value at
an existing key, else append the new entry. -/
def dictSet (d : List (String × Nat)) (k : String) (v : Nat) :
    List (String × Nat) :=
  if d.any (fun kv => kv.1 = k) then
    d.map (fun kv => if kv.1 = k then (kv.1, v) else kv)
  else
    d ++ [(k, v)]

/-- Python dict lookup `d.get(k, None)` on a counts dict. -/
def dictGetNat (d : List (String × Nat)) (k : String) : Option Nat :=
  d.foldl (fun acc kv => if kv.1 = k then some kv.2 else acc) none

/-- The `SKIP_DIRS` set of src/app/core/scanner.py: directory base names
pruned by the walker. -/
def SKIP_DIRS : List String :=
  [".git", "node_modules", ".venv", "venv", "__pycache__", "dist", "build",
   "out", "tmp", ".pytest_cache", ".mypy_cache", ".vscode"]

/-- The `BINARY_EXTENSIONS` set of src/app/core/scanner.py. -/
def BINARY_EXTENSIONS : List String :=
  [".jpg", ".jpeg", ".png", ".gif", ".bmp", ".tiff", ".ico", ".webp", ".svg",
   ".zip", ".tar", ".gz", ".bz2", ".rar", ".7z", ".pdf", ".exe", ".dll",
   ".so", ".dylib", ".ttf", ".otf", ".woff", ".woff2", ".mp4", ".mov",
   ".avi"]

/-- The `DATA_EXTENSIONS` set of src/app/core/scanner.py. -/
def DATA_EXTENSIONS : List String :=
  [".csv", ".jsonl", ".xml", ".tsv", ".parquet", ".sqlite", ".db", ".ndjson"]

/-- The `LANGUAGE_BY_EXT` dict of src/app/core/scanner.py, as its ordered
entry list (no duplicate keys). -/
def LANGUAGE_BY_EXT : List (String × String) :=
  [(".c", "c"), (".cpp", "cpp"), (".cs", "csharp"), (".css", "css"),
   (".go", "go"), (".h", "c-header"), (".hpp", "cpp-header"),
   (".html", "html"), (".java", "java"), (".js", "javascript"),
   (".jsx", "javascript"), (".kt", "kotlin"), (".m", "objective-c"),
   (".md", "markdown"), (".mm", "objective-c++"), (".php", "php"),
   (".py", "python"), (".rb", "ruby"), (".rs", "rust"), (".sass", "sass"),
   (".scala", "scala"), (".scss", "scss"), (".sql", "sql"),
   (".swift", "swift"), (".ts", "typescript"), (".tsx", "typescript"),
   (".vb", "vb")]

/-- The ordered entry list of the `CATEGORY_BY_EXT` dict literal of
src/app/core/scanner.py: first every language extension mapped to "code"
(via `dict.fromkeys(LANGUAGE_BY_EXT, "code")`), then the config,
documentation, script and infrastructure overrides, then the data
extensions, then the asset entry. A later entry with the same key (e.g.
`".md"`) overrides the earlier one, exactly as in a Python dict literal. -/
def CATEGORY_BY_EXT_entries : List (String × String) :=
  LANGUAGE_BY_EXT.map (fun kv => (kv.1, "code")) ++
  [(".yml", "config"), (".yaml", "config"), (".json", "config"),
   (".toml", "config"), (".ini", "config"), (".cfg", "config"),
   (".conf", "config"),
   (".md", "documentation"), (".rst", "documentation"),
   (".txt", "documentation"), (".adoc", "documentation"),
   (".sh", "script"), (".ps1", "script"), (".bat", "script"),
   (".cmd", "script"),
   (".tf", "infrastructure"), (".dockerfile", "infrastructure")] ++
  DATA_EXTENSIONS.map (fun e => (e, "data")) ++
  [(".svg", "asset")]

/-- Lookup `CATEGORY_BY_EXT.get(ext, None)`. -/
def CATEGORY_BY_EXT (ext : String) : Option String :=
  dictGet CATEGORY_BY_EXT_entries ext

/-- The `DEPENDENCY_KIND_BY_NAME` dict of src/app/core/scanner.py: exact
(case-sensitive) manifest filename to dependency kind. -/
def DEPENDENCY_KIND_BY_NAME : List (String × String) :=
  [("requirements.txt", "python-requirements"),
   ("pyproject.toml", "python-pyproject"),
   ("Pipfile", "python-pipenv"),
   ("Pipfile.lock", "python-pipenv-lock"),
   ("poetry.lock", "python-poetry-lock"),
   ("package.json", "node-package"),
   ("package-lock.json", "node-lock"),
   ("pnpm-lock.yaml", "node-pnpm-lock"),
   ("yarn.lock", "node-yarn-lock"),
   ("go.mod", "go-mod"),
   ("go.sum", "go-sum"),
   ("pom.xml", "maven-pom"),
   ("Gemfile", "ruby-gemfile"),
   ("Gemfile.lock", "ruby-gem-lock"),
   ("Cargo.toml", "rust-cargo"),
   ("Cargo.lock", "rust-cargo-lock")]

/-- The function `is_binary_ext` of src/app/core/scanner.py. -/
def is_binary_ext (ext : String) : Bool :=
  BINARY_EXTENSIONS.contains ext

/-- The function `is_data_ext` of src/app/core/scanner.py. -/
def is_data_ext (ext : String) : Bool :=
  DATA_EXTENSIONS.contains ext

/-- One directory entry that is a file: its name, and the result of
`stat()` on it — `some size` on success, `none` when stat raises OSError
(file deleted between listing and stat, or permission denied). -/
structure FileEntry where
  name : String
  statResult : Option Nat
deriving DecidableEq, Repr

/-- A directory tree: directory name, files directly inside, and
subdirectories. The filesystem model over which `os.walk` runs. -/
inductive DirTree where
  | node (name : String) (files : List FileEntry) (subdirs : List DirTree)
deriving Repr

/-- Name of a directory node. -/
def DirTree.dirName : DirTree → String
  | .node n _ _ => n

/-- Files directly inside a directory node. -/
def DirTree.dirFiles : DirTree → List FileEntry
  | .node _ fs _ => fs

/-- Subdirectories of a directory node. -/
def DirTree.dirSubdirs : DirTree → List DirTree
  | .node _ _ ds => ds

mutual
/-- The walker `walk_the_repo` of src/app/core/scanner.py: `os.walk` from
the root, pruning every subdirectory whose base name is in `SKIP_DIRS`
before descending (`subdirectories[:] = [d for d in subdirectories if d not
in SKIP_DIRS]`), and yielding `Path(dirpath) / fname` for every file of
each visited directory. A yielded path is represented relative to the root
as (list of directory names below the root, file entry). -/
def walk_the_repo : DirTree → List (List String × FileEntry)
  | .node _ files subdirs =>
      files.map (fun f => (([] : List String), f)) ++ walkSubdirs subdirs

/-- Walk the (already pruned-per-element) list of subdirectories: a
subdirectory whose name is in `SKIP_DIRS` is dropped entirely together
with its whole subtree; the others are walked recursively, their results
prefixed with the subdirectory name. -/
def walkSubdirs : List DirTree → List (List String × FileEntry)
  | [] => []
  | d :: ds =>
      (if SKIP_DIRS.contains d.dirName then []
       else (walk_the_repo d).map (fun pf => (d.dirName :: pf.1, pf.2))) ++
      walkSubdirs ds
end

/-- The `FileRecord` pydantic model of src/app/models.py. `size_bytes` is a
Nat since `stat().st_size` is non-negative. The model declares no
`data_type` field (unlike the variant in src/gcrs/models.py). -/
structure FileRecord where
  relative_dir : String
  name : String
  extension : Option String := none
  category : Option String := none
  language : Option String := none
  technologies : List String := []
  dependency_kind : Option String := none
  size_bytes : Nat
  is_binary : Bool
deriving DecidableEq, Repr

/-- The field names of the `FileRecord` model in src/app/models.py. -/
def fileRecordFields : List String :=
  ["relative_dir", "name", "extension", "category", "language",
   "technologies", "dependency_kind", "size_bytes", "is_binary"]

/-- The field names of the `RepositorySummary` model in src/app/models.py
(the model imported by src/app/core/scanner.py). -/
def repositorySummaryFields : List String :=
  ["files_by_language", "files_by_category", "files_by_technology",
   "files_by_dependency", "files_by_extension", "total_files",
   "scanned_files", "skipped_files", "summary"]

/-- The required (default-less) field names of `RepositorySummary` in
src/app/models.py: the five histogram dicts. -/
def repositorySummaryRequiredFields : List String :=
  ["files_by_language", "files_by_category", "files_by_technology",
   "files_by_dependency", "files_by_extension"]

/-- The keyword-argument names passed at the `RepositorySummary(...)`
construction site inside `scan_repo` (src/app/core/scanner.py lines
259-269). -/
def scanRepoSummaryKwargs : List String :=
  ["language_files", "category_files", "technology_files",
   "dependency_files", "file_extensions", "total_files", "scanned_files",
   "skipped_files", "summary"]

/-- Pydantic model validation with the default `extra="ignore"` config:
construction succeeds iff every required (default-less) field name is among
the provided keyword arguments; unknown keyword arguments are ignored. -/
def pydanticValidationOk (provided required : List String) : Bool :=
  required.all (fun r => provided.contains r)

/-- The exceptions `scan_repo` can raise: the pydantic ValidationError from
the `RepositorySummary(...)` construction, and an uncaught OSError from
`filename.stat()`. -/
inductive ScanError where
  | validationError
  | osError
deriving DecidableEq, Repr

/-- The summary accumulator exactly as the loop body of `scan_repo` (lines
271-295) addresses it: attribute names `language_files`, `category_files`,
`file_extensions`, `scanned_files` are the ones the loop text mutates;
`technology_files`, `dependency_files`, `total_files`, `skipped_files`,
`summary` come from the construction site and are never touched by the
loop. -/
structure ScanState where
  language_files : List (String × Nat)
  category_files : List (String × Nat)
  technology_files : List (String × Nat)
  dependency_files : List (String × Nat)
  file_extensions : List (String × Nat)
  total_files : Nat
  scanned_files : Nat
  skipped_files : Nat
  summary : String
deriving DecidableEq, Repr

/-- The initial summary value from the `RepositorySummary(...)` call in
`scan_repo`: empty dicts, zero counters, empty summary string. -/
def initScanState : ScanState :=
  { language_files := [], category_files := [], technology_files := [],
    dependency_files := [], file_extensions := [], total_files := 0,
    scanned_files := 0, skipped_files := 0, summary := "" }

/-- The per-file classification part of the `scan_repo` loop body (lines
272-287): `relative_dir = filename.relative_to(repo_root_path).as_posix()`
(note: the FULL path of the file relative to the root, filename included),
`extension = filename.suffix.lower()`, language and category by dict
lookup, `is_binary = is_binary_ext(extension)`, `size_bytes =
filename.stat().st_size` with no exception handling (a stat failure
propagates as OSError), and the `FileRecord(...)` construction, which
passes no `dependency_kind` (so it defaults to None) and no
`technologies`. -/
def classifyFile (dirs : List String) (f : FileEntry) :
    Except ScanError FileRecord :=
  match f.statResult with
  | none => .error .osError
  | some size =>
      .ok { relative_dir := String.intercalate "/" (dirs ++ [f.name]),
            name := f.name,
            extension := some (lowerStr (pySuffix f.name)),
            category := CATEGORY_BY_EXT (lowerStr (pySuffix f.name)),
            language := dictGet LANGUAGE_BY_EXT (lowerStr (pySuffix f.name)),
            technologies := [],
            dependency_kind := none,
            size_bytes := size,
            is_binary := is_binary_ext (lowerStr (pySuffix f.name)) }

/-- One iteration of the `scan_repo` loop (lines 271-295): classify the
file (propagating a stat OSError), append the record, increment
`scanned_files`, and for language, category and a non-empty extension SET
the corresponding dict entry to 1 (`summary.language_files[language] = 1`
and likewise — an assignment, not an increment). `total_files` and
`skipped_files` are not touched. -/
def scanRepoStep (acc : List FileRecord × ScanState)
    (p : List String × FileEntry) :
    Except ScanError (List FileRecord × ScanState) := do
  let r ← classifyFile p.1 p.2
  let st := acc.2
  let st := { st with scanned_files := st.scanned_files + 1 }
  let st := match r.language with
    | some l => { st with language_files := dictSet st.language_files l 1 }
    | none => st
  let st := match r.category with
    | some c => { st with category_files := dictSet st.category_files c 1 }
    | none => st
  let st := match r.extension with
    | some e =>
        if e ≠ "" then
          { st with file_extensions := dictSet st.file_extensions e 1 }
        else st
    | none => st
  .ok (acc.1 ++ [r], st)

/-- The `for filename in filenames:` loop of `scan_repo` over the walked
paths, starting from the freshly constructed summary and empty record
list. -/
def scanRepoLoop (paths : List (List String × FileEntry)) :
    Except ScanError (List FileRecord × ScanState) :=
  paths.foldlM scanRepoStep ([], initScanState)

/-- The function `scan_repo` of src/app/core/scanner.py: it first builds
the summary via `RepositorySummary(language_files={}, category_files={},
technology_files={}, dependency_files={}, file_extensions={}, ...)` — a
pydantic model whose required fields are `files_by_language` etc., so
validation is checked against those names — and only then iterates over the
walked files. -/
def scan_repo (t : DirTree) :
    Except ScanError (List FileRecord × ScanState) :=
  if pydanticValidationOk scanRepoSummaryKwargs repositorySummaryRequiredFields
  then scanRepoLoop (walk_the_repo t)
  else .error .validationError

/-- Abstract status of a filesystem path for the gcrs API layer: whether it
exists and whether it is a directory. -/
structure PathStatus where
  pathExists : Bool
  isDir : Bool
deriving DecidableEq, Repr

/-- The function `validate_path` of src/gcrs/api/main.py: if the path does
NOT exist it is CREATED (`path_obj.mkdir(parents=True, exist_ok=True)`) and
returned as a now-existing directory; only a path that exists and is not a
directory yields None; an existing directory is returned unchanged. -/
def validate_path (p : PathStatus) : Option PathStatus :=
  if p.pathExists = false then
    some { pathExists := true, isDir := true }
  else if p.isDir = false then
    none
  else
    some p

/-- Outcome of the root-validation step of the `/scan/summary` endpoint
`summarize_repository_contents` in src/gcrs/api/main.py. -/
inductive SummaryOutcome where
  | errorNotFound
  | proceeds (root : PathStatus)
deriving DecidableEq, Repr

/-- The root-validation step of `summarize_repository_contents`
(src/gcrs/api/main.py lines 100-110): return the error SummaryResponse only
when `validate_path` returns None; otherwise continue into output-directory
handling and the scan. -/
def summarize_repository_contents (root : PathStatus) : SummaryOutcome :=
  match validate_path root with
  | none => .errorNotFound
  | some p => .proceeds p

/-- A root directory holding the single classifiable file `a.py`. -/
def rootOnePy : DirTree :=
  .node "repo" [{ name := "a.py", statResult := some 50 }] []

/-- A root directory holding two Python files `a.py` and `b.py`. -/
def rootTwoPy : DirTree :=
  .node "repo"
    [{ name := "a.py", statResult := some 10 },
     { name := "b.py", statResult := some 20 }] []

/-- A root directory holding a single root-level `README.md`. -/
def rootReadme : DirTree :=
  .node "repo" [{ name := "README.md", statResult := some 10 }] []

/-- A root directory where `stat` fails on the first walked file
(`gone.py`, deleted between listing and stat) while a second file is
perfectly readable. -/
def rootStatFail : DirTree :=
  .node "repo"
    [{ name := "gone.py", statResult := none },
     { name := "b.py", statResult := some 5 }] []

/-- A JavaScript file placed inside a `node_modules` directory. -/
def cjsEntry : FileEntry := { name := "c.js", statResult := some 200 }

/-- A root directory with a root-level `README.md` and a denylisted
`node_modules` subdirectory containing `c.js`. -/
def rootWithNodeModules : DirTree :=
  .node "repo" [{ name := "README.md", statResult := some 10 }]
    [.node "node_modules" [cjsEntry] []]

/-- The file entry for a root-level `README.md`. -/
def readmeEntry : FileEntry := { name := "README.md", statResult := some 10 }

/-- The FileRecord that `classifyFile` produces for a root-level
`README.md` of 10 bytes. -/
def readmeRecord : FileRecord :=
  { relative_dir := "README.md", name := "README.md",
    extension := some ".md", category := some "documentation",
    language := some "markdown", technologies := [],
    dependency_kind := none, size_bytes := 10, is_binary := false }

mutual
/-- Every path yielded by the walker has no denylisted directory name among
its components below the root: pruning removes a denylisted subdirectory
together with its whole subtree before descending. -/
theorem walk_no_skip : ∀ (t : DirTree), ∀ p ∈ walk_the_repo t, ∀ s ∈ p.1,
    SKIP_DIRS.contains s = false
  | .node _ files subdirs => by
    intro p hp s hs
    rw [walk_the_repo] at hp
    rcases List.mem_append.mp hp with h1 | h2
    · rcases List.mem_map.mp h1 with ⟨f, _, rfl⟩
      simp at hs
    · exact walkSubdirs_no_skip subdirs p h2 s hs

/-- Same property for the walk of a subdirectory list. -/
theorem walkSubdirs_no_skip : ∀ (ds : List DirTree), ∀ p ∈ walkSubdirs ds,
    ∀ s ∈ p.1, SKIP_DIRS.contains s = false
  | [] => by
    intro p hp
    rw [walkSubdirs] at hp
    exact absurd hp (List.not_mem_nil p)
  | d :: ds => by
    intro p hp s hs
    rw [walkSubdirs] at hp
    rcases List.mem_append.mp hp with h1 | h2
    · by_cases hc : SKIP_DIRS.contains d.dirName = true
      · rw [if_pos hc] at h1
        exact absurd h1 (List.not_mem_nil p)
      · rw [if_neg hc] at h1
        rcases List.mem_map.mp h1 with ⟨q, hq, rfl⟩
        rcases List.mem_cons.mp hs with rfl | hs2
        · exact Bool.eq_false_iff.mpr hc
        · exact walk_no_skip d q hq s hs2
    · exact walkSubdirs_no_skip ds p h2 s hs
end

/-- C3: for every input root, `scan_repo` raises before processing any
file and never returns a (records, summary) pair: the `RepositorySummary`
construction uses keyword arguments `language_files`, `category_files`,
`technology_files`, `dependency_files`, `file_extensions`, while the model
imported from src/app/models.py requires the default-less fields
`files_by_language`, `files_by_category`, `files_by_technology`,
`files_by_dependency`, `files_by_extension`, so pydantic validation fails
on every call. -/
theorem scan_repo_always_raises_validation_error (t : DirTree) :
    scan_repo t = .error .validationError := rfl

/-- C1: the total-files invariant fails on the code. On a root with one
classifiable file, `scan_repo` itself raises a ValidationError and yields
no summary; and even the aggregation loop as written (lines 271-295) never
touches `total_files` or `skipped_files`, so after it processes the file it
leaves `total_files = 0` while `scanned_files = 1`, violating
`total_files = scanned_files + skipped_files`. -/
theorem total_files_invariant_violated :
    scan_repo rootOnePy = .error .validationError ∧
    (scanRepoLoop (walk_the_repo rootOnePy)).toOption.map
        (fun rs => (rs.2.total_files, rs.2.scanned_files, rs.2.skipped_files))
      = some (0, 1, 0) ∧
    ¬ (0 : Nat) = 1 + 0 :=
  ⟨rfl, rfl, by decide⟩

/-- C2: aggregation does not increment histogram buckets. On a root with
two `.py` files the loop executes `summary.language_files["python"] = 1`
twice — an assignment, not an increment — so the language histogram maps
"python" to 1, not 2; and the `dependency_files` dict stays empty (no
dependency-kind aggregation exists), while the RepositorySummary model of
src/app/models.py has no data-type or binary-extension histogram field at
all. -/
theorem histogram_buckets_set_to_one_not_incremented :
    (scanRepoLoop (walk_the_repo rootTwoPy)).toOption.map
        (fun rs => rs.2.language_files) = some [("python", 1)] ∧
    dictGetNat [("python", 1)] "python" = some 1 ∧
    (some 1 : Option Nat) ≠ some 2 ∧
    (scanRepoLoop (walk_the_repo rootTwoPy)).toOption.map
        (fun rs => rs.2.dependency_files) = some [] ∧
    repositorySummaryFields.contains "data_files_by_extension" = false ∧
    repositorySummaryFields.contains "binary_files_by_extension" = false :=
  ⟨rfl, rfl, by decide, rfl, rfl, rfl⟩

/-- C4: a stat failure is NOT absorbed as a skip. The loop body calls
`filename.stat()` with no exception handling, so on a root where the first
walked file's stat fails, the whole scan aborts with the OSError: no record
for any file, and `skipped_files` is never incremented. -/
theorem stat_failure_aborts_whole_scan :
    scanRepoLoop (walk_the_repo rootStatFail) = .error .osError :=
  rfl

/-- C5: a nonexistent root does not fail fast. `validate_path` in
src/gcrs/api/main.py CREATES a missing path (`mkdir(parents=True)`) and
returns it, so the `/scan/summary` endpoint proceeds to scan the freshly
created empty directory instead of returning the not-found error; only a
path that exists and is not a directory is rejected. -/
theorem nonexistent_root_created_not_rejected :
    validate_path { pathExists := false, isDir := false } =
      some { pathExists := true, isDir := true } ∧
    summarize_repository_contents { pathExists := false, isDir := false } =
      .proceeds { pathExists := true, isDir := true } ∧
    summarize_repository_contents { pathExists := false, isDir := false } ≠
      .errorNotFound ∧
    validate_path { pathExists := true, isDir := false } = none :=
  ⟨rfl, rfl, by decide, rfl⟩

/-- C6: `dependency_kind` is never assigned. The manifest-name table does
map "requirements.txt" to "python-requirements", but `scan_repo` never
consults it: the `FileRecord(...)` construction passes no
`dependency_kind`, so the record for a file named `requirements.txt` has
`dependency_kind = None`, not "python-requirements". -/
theorem requirements_txt_dependency_kind_none :
    dictGet DEPENDENCY_KIND_BY_NAME "requirements.txt" =
      some "python-requirements" ∧
    (classifyFile [] { name := "requirements.txt", statResult := some 30
      }).toOption.map (fun r => r.dependency_kind) = some none ∧
    (some (none : Option String)) ≠ some (some "python-requirements") :=
  ⟨rfl, rfl, by decide⟩

/-- C7: the extension-presence counters do not exist. The
`RepositorySummary` model of src/app/models.py (the one `scan_repo`
imports) has no `files_with_extension` or `files_without_extension` field,
the loop maintains no such counters, and `scan_repo` raises before
producing any summary anyway. -/
theorem extension_presence_counters_missing :
    repositorySummaryFields.contains "files_with_extension" = false ∧
    repositorySummaryFields.contains "files_without_extension" = false ∧
    scan_repo rootReadme = .error .validationError :=
  ⟨rfl, rfl, rfl⟩

/-- C8: `relative_dir` is the file's full root-relative path, filename
included: `filename.relative_to(repo_root_path).as_posix()` is computed on
the file path, not on its parent, so a root-level `a.py` gets
`relative_dir = "a.py"` (not ".") and `src/b.py` gets "src/b.py" (not
"src"). -/
theorem relative_dir_includes_filename :
    (classifyFile [] { name := "a.py", statResult := some 50 }).toOption.map
        (fun r => r.relative_dir) = some "a.py" ∧
    (some "a.py" : Option String) ≠ some "." ∧
    (classifyFile ["src"] { name := "b.py", statResult := some 7
      }).toOption.map (fun r => r.relative_dir) = some "src/b.py" :=
  ⟨rfl, by decide, rfl⟩

/-- C9: every successfully classified file whose lowercased extension is
".md" is assigned category "documentation", because in the
`CATEGORY_BY_EXT` dict literal the documentation override follows the
code-derived entry for ".md" (which is present via the language table) and
the last entry wins; and on a root with one `README.md` the loop's
documentation bucket holds 1. -/
theorem md_files_categorized_documentation :
    (∀ (dirs : List String) (f : FileEntry) (r : FileRecord),
        classifyFile dirs f = .ok r →
        lowerStr (pySuffix f.name) = ".md" →
        r.category = some "documentation") ∧
    CATEGORY_BY_EXT_entries.contains (".md", "code") = true ∧
    CATEGORY_BY_EXT ".md" = some "documentation" ∧
    (scanRepoLoop (walk_the_repo rootReadme)).toOption.map
        (fun rs => dictGetNat rs.2.category_files "documentation")
      = some (some 1) := by
  refine ⟨?_, rfl, rfl, rfl⟩
  intro dirs f r hok hmd
  cases hstat : f.statResult with
  | none => simp [classifyFile, hstat] at hok
  | some size =>
      simp only [classifyFile, hstat, Except.ok.injEq] at hok
      subst hok
      show CATEGORY_BY_EXT (lowerStr (pySuffix f.name)) = some "documentation"
      rw [hmd]
      rfl

/-- Witness for C9 at a concrete root-level README.md. -/
theorem md_files_categorized_documentation_witness :
    classifyFile [] readmeEntry = .ok readmeRecord ∧
    lowerStr (pySuffix "README.md") = ".md" ∧
    readmeRecord.category = some "documentation" :=
  ⟨rfl, rfl,
   md_files_categorized_documentation.1 [] readmeEntry readmeRecord rfl rfl⟩

/-- C10: a file whose root-relative path passes through a directory whose
base name is in `SKIP_DIRS` is never yielded by the walker (and hence can
appear in no record list and no histogram, which are built only from
yielded paths). -/
theorem denylisted_paths_never_yielded (t : DirTree)
    (p : List String × FileEntry)
    (h : ∃ s ∈ p.1, SKIP_DIRS.contains s = true) :
    p ∉ walk_the_repo t := by
  intro hp
  obtain ⟨s, hs, hc⟩ := h
  rw [walk_no_skip t p hp s hs] at hc
  exact Bool.false_ne_true hc

/-- Witness for C10: `node_modules/c.js` is not yielded from a root that
contains it. -/
theorem denylisted_paths_never_yielded_witness :
    (∃ s ∈ ["node_modules"], SKIP_DIRS.contains s = true) ∧
    (["node_modules"], cjsEntry) ∉ walk_the_repo rootWithNodeModules :=
  ⟨⟨"node_modules", by decide, by decide⟩,
   denylisted_paths_never_yielded rootWithNodeModules
     (["node_modules"], cjsEntry) ⟨"node_modules", by decide, by decide⟩⟩

end Gcrs
